import Mathlib

/-!
Verification development for the certificate-verification repository.

Shallow embedding of the Python sources:
  * `CertVerify`  — `verify_certificate.py` (metadata plausibility check,
    fuzzy-name / logo signal fusion, conjunctive verdict gate);
  * `Scraping`    — `scraper_test/scraping.py` (PDF-link discovery and the
    `extract_from_website` orchestrator);
  * `MainPdf`     — `main.py` (`extract_content_from_pdf`);
  * `VerifyMain`  — `verify_main.py` (orchestrator `verify_certificate`);
  * `BgApp`       — `background_removal_app.py` (`simple_verify_certificate`).

External effects (PyMuPDF, OpenCV, network, the LLM) are modelled by explicit
environment records whose fields carry `Except`-valued outcomes; a Python
`raise` is an `Except.error`, and a `try/except` becomes a `match` on it.
-/

namespace PyDate

/-- Numeric value of a digit character. -/
def dval (c : Char) : Nat := c.toNat - 48

/-- Candidate parses of a month prefix, in CPython `_strptime` alternation
order for the directive `%m`: two-digit `1[0-2]`, two-digit `0[1-9]`, then a
single digit `[1-9]`.  Each candidate is the month value and the unconsumed
rest of the input. -/
def monthCands : List Char → List (Nat × List Char)
  | [] => []
  | [c] => if '1' ≤ c ∧ c ≤ '9' then [(dval c, [])] else []
  | c1 :: c2 :: rest =>
      (if c1 = '1' ∧ (c2 = '0' ∨ c2 = '1' ∨ c2 = '2') then [(10 + dval c2, rest)] else []) ++
      (if c1 = '0' ∧ '1' ≤ c2 ∧ c2 ≤ '9' then [(dval c2, rest)] else []) ++
      (if '1' ≤ c1 ∧ c1 ≤ '9' then [(dval c1, c2 :: rest)] else [])

/-- Candidate parses of a day prefix, in CPython `_strptime` alternation order
for the directive `%d`: `3[01]`, `[12][0-9]`, `0[1-9]`, then `[1-9]`. -/
def dayCands : List Char → List (Nat × List Char)
  | [] => []
  | [c] => if '1' ≤ c ∧ c ≤ '9' then [(dval c, [])] else []
  | c1 :: c2 :: rest =>
      (if c1 = '3' ∧ (c2 = '0' ∨ c2 = '1') then [(30 + dval c2, rest)] else []) ++
      (if (c1 = '1' ∨ c1 = '2') ∧ c2.isDigit then [(10 * dval c1 + dval c2, rest)] else []) ++
      (if c1 = '0' ∧ '1' ≤ c2 ∧ c2 ≤ '9' then [(dval c2, rest)] else []) ++
      (if '1' ≤ c1 ∧ c1 ≤ '9' then [(dval c1, c2 :: rest)] else [])

/-- First month/day split (in regex backtracking order) that consumes the
whole input, as `datetime.strptime(s, "%m%d")` would match after the year. -/
def firstMonthDay (rest : List Char) : Option (Nat × Nat) :=
  ((monthCands rest).flatMap (fun mc =>
    (dayCands mc.2).filterMap (fun dc =>
      if dc.2 = [] then some (mc.1, dc.1) else none))).head?

/-- Gregorian leap-year predicate (as Python `calendar`/`datetime`). -/
def isLeap (y : Nat) : Bool := decide ((y % 4 = 0 ∧ y % 100 ≠ 0) ∨ y % 400 = 0)

/-- Length of month `m` in year `y` (Python `datetime` validation). -/
def daysInMonth (y m : Nat) : Nat :=
  if m = 2 then (if isLeap y then 29 else 28)
  else if m = 4 ∨ m = 6 ∨ m = 9 ∨ m = 11 then 30
  else 31

/-- Model of `datetime.strptime(s, "%Y%m%d")`: exactly four digits of year,
then month and day per the alternation patterns, the whole string consumed,
followed by `datetime`'s calendar validation (`MINYEAR = 1`, day within the
month).  Returns `none` where Python raises `ValueError`. -/
def strptimeYmd (s : List Char) : Option (Nat × Nat × Nat) :=
  match s with
  | y1 :: y2 :: y3 :: y4 :: rest =>
      if y1.isDigit ∧ y2.isDigit ∧ y3.isDigit ∧ y4.isDigit then
        let y := 1000 * dval y1 + 100 * dval y2 + 10 * dval y3 + dval y4
        match firstMonthDay rest with
        | some (m, d) =>
            if 1 ≤ y ∧ 1 ≤ d ∧ d ≤ daysInMonth y m then some (y, m, d) else none
        | none => none
      else none
  | _ => none

/-- Days elapsed before January 1 of year `y` in the proleptic Gregorian
calendar (CPython `datetime._days_before_year`). -/
def daysBeforeYear (y : Nat) : Nat :=
  let n := y - 1
  365 * n + n / 4 - n / 100 + n / 400

/-- Days elapsed in year `y` before the first of month `m`. -/
def daysBeforeMonth (y m : Nat) : Nat :=
  (List.range (m - 1)).foldl (fun acc i => acc + daysInMonth y (i + 1)) 0

/-- Python `date(y, m, d).toordinal()`: day number with `0001-01-01 = 1`. -/
def toOrdinal (y m d : Nat) : Nat := daysBeforeYear y + daysBeforeMonth y m + d

end PyDate

namespace CertVerify

/-- `WEIGHTS['name_match']` in `verify_certificate.py`. -/
def WEIGHTS_name_match : ℚ := 0.4

/-- `WEIGHTS['logo_match']`. -/
def WEIGHTS_logo_match : ℚ := 0.4

/-- `WEIGHTS['metadata_check']`. -/
def WEIGHTS_metadata_check : ℚ := 0.2

/-- `THRESHOLDS['name_score']`. -/
def THRESHOLDS_name_score : ℕ := 85

/-- `THRESHOLDS['logo_score']`. -/
def THRESHOLDS_logo_score : ℕ := 50

/-- `THRESHOLDS['metadata_score']`. -/
def THRESHOLDS_metadata_score : ℕ := 100

/-- Outcome of the metadata step: the score written to
`results['metadata_check_score']` and the log lines appended. -/
structure MetaOutcome where
  score : ℕ
  log : List String
deriving DecidableEq, Repr

/-- Step 1 of `verify_certificate` (lines 80–97): the creation-date
plausibility check.  `creationDate` models `doc.metadata['creationDate']`
(`none` for a missing key or Python-falsy `None`); `now` is the ordinal day of
`datetime.now()` — since the parsed creation date is a midnight `datetime`,
`(datetime.now() - creation_date).days` equals `now - toOrdinal(parsed)`
exactly (the positive time-of-day part never changes the floored day count). -/
def metadataCheck (creationDate : Option String) (now : ℤ) : MetaOutcome :=
  match creationDate with
  | none => ⟨0, ["Warning: No creation date found in metadata."]⟩
  | some s =>
      if s = "" then ⟨0, ["Warning: No creation date found in metadata."]⟩
      else
        let cs := s.toList
        let cs2 := if "D:".toList.isPrefixOf cs then (cs.drop 2).take 8 else cs
        match PyDate.strptimeYmd cs2 with
        | none => ⟨0, ["Error: Creation date format invalid."]⟩
        | some (y, m, d) =>
            if now - (PyDate.toOrdinal y m d : ℤ) ≤ 365 * 5 then ⟨100, []⟩
            else ⟨0, ["Warning: Certificate is older than 5 years."]⟩

/-- The weighted combination of lines 138–142 before the `* 100` scaling:
`(name/100)*0.4 + (min(logo, 50)/50)*0.4 + (meta/100)*0.2`. -/
def weightedCombination (name logo meta : ℕ) : ℚ :=
  ((name : ℚ) / 100) * WEIGHTS_name_match +
    (((min logo THRESHOLDS_logo_score : ℕ) : ℚ) / (THRESHOLDS_logo_score : ℚ)) * WEIGHTS_logo_match +
    ((meta : ℚ) / 100) * WEIGHTS_metadata_check

/-- `results['final_score']` (line 143): the weighted combination times 100. -/
def final_score (name logo meta : ℕ) : ℚ := weightedCombination name logo meta * 100

/-- The verdict of lines 145–151: `is_verified` is true exactly when all
three raw scores clear their own thresholds. -/
def is_verified (name logo meta : ℕ) : Bool :=
  decide (THRESHOLDS_name_score ≤ name) &&
    decide (THRESHOLDS_logo_score ≤ logo) &&
    decide (meta = THRESHOLDS_metadata_score)

/-- The ratio filter of line 127: from one `bf.knnMatch(des_ref, des_ext, k=2)`
result — a list of (best, second-best) descriptor-distance pairs — keep the
pairs whose best distance is below `0.75` times the second-best. -/
def goodMatches (ms : List (ℚ × ℚ)) : List (ℚ × ℚ) :=
  ms.filter (fun p => p.1 < 0.75 * p.2)

/-- Body of the inner loop of step 3 (lines 119–129) for the configured
reference mark (`AUTHENTIC_LOGOS` holds a single entry): each candidate entry
is the knnMatch distance pairs for one extracted image, or `none` when
`cv2.imread` returned `None` or SIFT produced no descriptors (the `continue`
branches, lines 120–125).  `logo_match_score` is raised to any larger
good-match count. -/
def logoAcc (acc : ℕ) (o : Option (List (ℚ × ℚ))) : ℕ :=
  match o with
  | none => acc
  | some ms => if (goodMatches ms).length > acc then (goodMatches ms).length else acc

/-- The full loop, starting from `logo_match_score = 0` (line 104). -/
def logoLoop (imgs : List (Option (List (ℚ × ℚ)))) : ℕ :=
  imgs.foldl logoAcc 0

/-- Step 3 of `verify_certificate` (lines 103–130): with no extracted images
only a warning is logged and the score stays 0; otherwise the matching loop
runs. -/
def logoStep (imgs : List (Option (List (ℚ × ℚ)))) : ℕ × List String :=
  if imgs.isEmpty then (0, ["Warning: No images found for logo verification."])
  else (logoLoop imgs, [])

/-- The visual-mark normalization inside line 140:
`min(logo_match_score, THRESHOLDS['logo_score']) / THRESHOLDS['logo_score']`. -/
def normalizedLogo (raw : ℕ) : ℚ :=
  ((min raw THRESHOLDS_logo_score : ℕ) : ℚ) / (THRESHOLDS_logo_score : ℚ)

/-- Outcome of the extraction phase of the `try` block (lines 51–79): the log
lines it appends, `doc.metadata['creationDate']`, and the extracted (or OCR)
text. -/
structure ExtractPhase where
  log : List String
  creationDate : Option String
  all_text : String

/-- Environment of one `verify_certificate` run in `verify_certificate.py`.
Each `Except` field is the outcome of a phase that calls external libraries
(PyMuPDF / pytesseract for extraction, OpenCV for the logo step); an
`Except.error` is an exception raised inside that phase.  `nameScoreOf` models
`fuzz.token_set_ratio(student_name.lower().strip(), all_text.lower())`, which
is total. -/
structure PipelineEnv where
  extractPhase : Except String ExtractPhase
  nameScoreOf : String → ℕ
  logoPhase : Except String (ℕ × List String)

/-- The results dict of `verify_certificate` (initialised at lines 38–45). -/
structure Results where
  is_verified : Bool
  final_score : ℚ
  name_match_score : ℕ
  logo_match_score : ℕ
  metadata_check_score : ℕ
  analysis_log : List String
deriving DecidableEq

/-- Lines 137–151, applied to whatever scores the `try` block managed to
store: the weighted final score and the conjunctive threshold verdict. -/
def finalize (name logo meta : ℕ) (log : List String) : Results :=
  { is_verified := is_verified name logo meta
    final_score := final_score name logo meta
    name_match_score := name
    logo_match_score := logo
    metadata_check_score := meta
    analysis_log := log }

/-- `verify_certificate` of `verify_certificate.py` (lines 37–153).  The
`try` block runs extraction, then the metadata check, the fuzzy name match and
the logo step, storing each score into `results` as it goes; any exception is
caught at line 134, leaving the scores already stored and appending an error
log line.  The weighted score and the gate verdict (lines 137–151) then run
unconditionally.  Exceptions are modelled at phase granularity via `env`. -/
def verify_certificate (env : PipelineEnv) (now : ℤ) : Results :=
  match env.extractPhase with
  | .error e => finalize 0 0 0 ["Error during verification: " ++ e]
  | .ok ex =>
      let mo := metadataCheck ex.creationDate now
      let nameScore := env.nameScoreOf ex.all_text
      match env.logoPhase with
      | .error e =>
          finalize nameScore 0 mo.score
            (ex.log ++ mo.log ++ ["Error during verification: " ++ e])
      | .ok (logo, logoLog) =>
          finalize nameScore logo mo.score (ex.log ++ mo.log ++ logoLog)

/-- Definition taken from the spec's words, for comparison with
`final_score`: "final_confidence = Σ(normalized_value_i × weight_i)", a number
in `[0,1]` (name normalized as score/100, visual mark capped at 50 and divided
by 50, metadata as score/100). -/
def spec_final_confidence (name logo meta : ℕ) : ℚ :=
  ((name : ℚ) / 100) * WEIGHTS_name_match +
    (((min logo 50 : ℕ) : ℚ) / 50) * WEIGHTS_logo_match +
    ((meta : ℚ) / 100) * WEIGHTS_metadata_check

end CertVerify

namespace Scraping

/-- Lexicographic comparison of character lists by code point — the order
Python's `sorted` uses on `str`. -/
def charListLe : List Char → List Char → Bool
  | [], _ => true
  | _ :: _, [] => false
  | a :: as, b :: bs =>
      if a.toNat < b.toNat then true
      else if b.toNat < a.toNat then false
      else charListLe as bs

/-- Python string order as a relation on `String`. -/
def pyLeRel (a b : String) : Prop := charListLe a.toList b.toList = true

instance : DecidableRel pyLeRel := fun a b =>
  inferInstanceAs (Decidable (charListLe a.toList b.toList = true))

/-- Substring test used to model Python's `in` on strings. -/
def listContains (needle : List Char) : List Char → Bool
  | [] => needle.isEmpty
  | c :: t => needle.isPrefixOf (c :: t) || listContains needle t

/-- `normalize_url` (lines 58–61 of `scraping.py`); `urljoin` abstracts
`urllib.parse.urljoin`. -/
def normalize_url (urljoin : String → String → String) (base_url href : String) :
    Option String :=
  if href = "" then none else some (urljoin base_url href)

/-- `is_pdf_link` (lines 63–67): false on an empty URL, otherwise whether
`".pdf"` occurs in the lower-cased path; `urlPath` abstracts
`urllib.parse.urlparse(url).path`. -/
def is_pdf_link (urlPath : String → String) (url : String) : Bool :=
  if url = "" then false
  else listContains ".pdf".toList ((urlPath url).toList.map Char.toLower)

/-- `find_pdf_links` (lines 114–122), with the parsed page abstracted to the
list of `href` attributes of its anchor tags: resolve each href against the
base URL, keep PDF links, de-duplicate (`set`), and sort
(`sorted` = lexicographic on the resolved URL). -/
def find_pdf_links (urljoin : String → String → String) (urlPath : String → String)
    (hrefs : List String) (base_url : String) : List String :=
  List.insertionSort pyLeRel
    (((hrefs.filterMap (normalize_url urljoin base_url)).filter (is_pdf_link urlPath)).dedup)

/-- `ExtractedDocument` dataclass of `scraping.py`. -/
structure ExtractedDocument where
  source_url : String
  content_type : String
  text : String
  metadata : List (String × String)
deriving DecidableEq

/-- Outcome of a successful `render_and_get_html` (lines 77–99) followed by
parsing: the anchor hrefs of the html, `html_to_text(html)`, and the captured
page metadata. -/
structure RenderResult where
  hrefs : List String
  text : String
  title : String
  final_url : String

/-- Outcome of a successful fallback `fetch_url(url)` (lines 183–203): the
`Content-Type` header and the texts each classification branch would
produce. -/
structure PlainResponse where
  content_type : String
  pdfText : String
  htmlText : String
  title : String

/-- Environment of one `extract_from_website` call.  `render` is the rendered
fetch after its 3 tenacity attempts, `fetchTop` the plain `fetch_url(url)`
after its attempts, `fetchPdf u` the `ensure_pdf(u)` download plus
`pdf_to_text`; an `Except.error` is the exception escaping those calls.
`fileName` abstracts the `pathlib` name given to the saved file; `urljoin` and
`urlPath` abstract the corresponding `urllib.parse` helpers. -/
structure ScrapeEnv where
  render : Except String RenderResult
  fetchTop : Except String PlainResponse
  fetchPdf : String → Except String String
  fileName : String → String
  urljoin : String → String → String
  urlPath : String → String

/-- One linked-PDF evidence document (lines 175–180). -/
def mkPdfDoc (env : ScrapeEnv) (pdf_url txt : String) : ExtractedDocument :=
  ⟨pdf_url, "pdf", txt, [("filename", env.fileName pdf_url)]⟩

/-- The loop over `pdf_links[:max_pdfs]` (lines 172–180): documents accumulate
until a download raises; the error is reported together with the documents
already appended (Python's `docs` list survives into the `except` branch). -/
def processPdfs (env : ScrapeEnv) (links : List String) (docs : List ExtractedDocument) :
    List ExtractedDocument × Option String :=
  match links with
  | [] => (docs, none)
  | l :: ls =>
      match env.fetchPdf l with
      | .error e => (docs, some e)
      | .ok txt => processPdfs env ls (docs ++ [mkPdfDoc env l txt])

/-- The `except` branch of `extract_from_website` (lines 181–203): a plain
GET, classified by content type.  A failure of this GET is NOT caught — it
propagates out of `extract_from_website`. -/
def fallback (env : ScrapeEnv) (url : String) (docs : List ExtractedDocument) :
    Except String (List ExtractedDocument) :=
  match env.fetchTop with
  | .error e => .error e
  | .ok resp =>
      if listContains "pdf".toList (resp.content_type.toList.map Char.toLower)
          || ".pdf".toList.isSuffixOf (url.toList.map Char.toLower) then
        .ok (docs ++ [⟨url, "pdf", resp.pdfText, [("filename", env.fileName url)]⟩])
      else
        .ok (docs ++ [⟨url, "html", resp.htmlText,
          [("final_url", url), ("title", resp.title)]⟩])

/-- The top-level html evidence document built at lines 164–169. -/
def topDoc (r : RenderResult) : ExtractedDocument :=
  ⟨r.final_url, "html", r.text, [("title", r.title), ("final_url", r.final_url)]⟩

/-- `extract_from_website` (lines 158–204): try the rendered fetch, append the
top-level document, optionally download the discovered PDF links; any
exception in that block falls into the plain-GET fallback, which itself may
re-raise. -/
def extract_from_website (env : ScrapeEnv) (url : String)
    (include_pdfs : Bool) (max_pdfs : ℕ) : Except String (List ExtractedDocument) :=
  match env.render with
  | .error _ => fallback env url []
  | .ok r =>
      if include_pdfs then
        let links := (find_pdf_links env.urljoin env.urlPath r.hrefs r.final_url).take max_pdfs
        match processPdfs env links [topDoc r] with
        | (docs, none) => .ok docs
        | (docs, some _) => fallback env url docs
      else .ok [topDoc r]

end Scraping

namespace MainPdf

/-- `extract_content_from_pdf` (`main.py`, lines 4–53).  `op` is the outcome
of the PyMuPDF work inside the `try` block — the concatenated page text and
the saved image paths; an `Except.error` models the raised exception
(`FileNotFoundError` for an unresolvable path, or any open/parse error).
Both `except` clauses print the error and return `(None, None)`; the result
is wrapped in `Except` to record that the function itself never raises. -/
def extract_content_from_pdf (op : Except String (String × List String)) :
    Except String (Option String × Option (List String)) :=
  match op with
  | .ok (text, images) => .ok (some text, some images)
  | .error _ => .ok (none, none)

end MainPdf

namespace VerifyMain

/-- The `llm_extraction` value of the result dict: the parsed JSON returned by
`call_llm_extract`, or the error/fallback dict built at lines 82–90 (fallback
is the first scraped document's title and source URL when any document
exists). -/
inductive LLMExtracted where
  | success (data : String)
  | failure (err : String) (fallback : Option (String × String))
deriving DecidableEq

/-- The dict returned by `verify_certificate` in `verify_main.py`: one of the
early `{"error": ...}` returns (lines 70, 76) or the final packaged result
(lines 93–98). -/
inductive VMResult where
  | errorDict (msg : String)
  | resultDict (parsed_pdf_data : Option String) (image_paths : Option (List String))
      (website_docs_count : ℕ) (llm_extraction : LLMExtracted)
deriving DecidableEq

/-- Top-level keys of the returned dict. -/
def VMResult.keys : VMResult → List String
  | .errorDict _ => ["error"]
  | .resultDict _ _ _ _ =>
      ["parsed_pdf_data", "image_paths", "website_docs_count", "llm_extraction"]

/-- Environment of one run of `verify_certificate` in `verify_main.py`:
outcomes of the PyMuPDF work inside `extract_content_from_pdf`, of
`extract_from_website`, of `build_prompt`, and of `call_llm_extract`; an
`Except.error` models a raised exception. -/
structure VMEnv where
  pdfOp : Except String (String × List String)
  scrape : Except String (List Scraping.ExtractedDocument)
  prompt : Except String String
  llm : Except String String

/-- Steps 4–6 of `verify_certificate` (lines 72–100): build the prompt
(failure returns an error dict), call the LLM (failure falls back to the first
scraped document's metadata), and package the result dict. -/
def afterScrape (env : VMEnv) (text_content : Option String)
    (image_paths : Option (List String)) (docs : List Scraping.ExtractedDocument) :
    Except String VMResult :=
  match env.prompt with
  | .error e => .ok (.errorDict ("Prompt building failed: " ++ e))
  | .ok _ =>
      let extracted :=
        match env.llm with
        | .ok j => LLMExtracted.success j
        | .error e =>
            LLMExtracted.failure e
              (match docs.head? with
               | some d => some ((d.metadata.lookup "title").getD "", d.source_url)
               | none => none)
      .ok (.resultDict text_content image_paths docs.length extracted)

/-- `verify_certificate` of `verify_main.py` (lines 25–100): extract the PDF
(that call swallows its own errors), optionally scrape the website (failure
returns an error dict), then the prompt / LLM / packaging steps. -/
def verify_certificate (env : VMEnv) (target_url : Option String) :
    Except String VMResult :=
  match MainPdf.extract_content_from_pdf env.pdfOp with
  | .error e => .error e
  | .ok (text_content, image_paths) =>
      match target_url with
      | none => afterScrape env text_content image_paths []
      | some _ =>
          match env.scrape with
          | .error e => .ok (.errorDict ("Website scraping failed: " ++ e))
          | .ok docs => afterScrape env text_content image_paths docs

end VerifyMain

namespace BgApp

/-- A PyMuPDF document handle as `simple_verify_certificate` uses it: the
extractable text, the metadata creation date, and whether the handle has been
closed.  Modelled fitz semantics: attribute access on a closed document raises
`ValueError("document closed")`. -/
structure FitzDoc where
  text : String
  creationDate : Option String
  is_closed : Bool

/-- `doc.close()`. -/
def FitzDoc.close (d : FitzDoc) : FitzDoc := { d with is_closed := true }

/-- `doc.metadata.get('creationDate', None)`: raises on a closed handle,
otherwise yields the stored creation date. -/
def FitzDoc.metadataGet (d : FitzDoc) : Except String (Option String) :=
  if d.is_closed then .error "document closed" else .ok d.creationDate

/-- The `try` block of `simple_verify_certificate`
(`background_removal_app.py`, lines 17–52) in the `Except` monad: read the
text, close the document, then access `doc.metadata` — which raises — and
(dead code from here on) run the date check, the fuzzy name check and the
final decision.  `now` is the ordinal day of `datetime.now()`; `fuzzScore`
models `fuzz.token_set_ratio`. -/
def simple_verify_body (d0 : FitzDoc) (student_name : String) (now : ℤ)
    (fuzzScore : String → String → ℕ) : Except String (Bool × String) := do
  let all_text := d0.text
  let d := d0.close
  let creation_date ← d.metadataGet
  let (metadata_ok, metadata_reason) :=
    match creation_date with
    | some s =>
        if "D:".toList.isPrefixOf s.toList then
          match PyDate.strptimeYmd ((s.toList.drop 2).take 8) with
          | some (y, m, dd) =>
              if now - (PyDate.toOrdinal y m dd : ℤ) ≤ 365 * 5 then (true, "")
              else (false, "Certificate is older than 5 years")
          | none => (false, "Invalid creation date format")
        else (false, "No creation date found")
    | none => (false, "No creation date found")
  let name_score := fuzzScore student_name.toLower all_text.toLower
  let name_ok := decide (85 ≤ name_score)
  let name_reason := if name_ok then "" else "Student name does not match"
  if name_ok && metadata_ok then
    pure (true, "Name and certificate date verified")
  else
    let reasons :=
      (if name_ok then [] else [name_reason]) ++
        (if metadata_ok then [] else [metadata_reason])
    pure (false, String.intercalate "; " reasons)

/-- `simple_verify_certificate` (lines 10–55): run the body on the opened
document; any exception — a failed `fitz.open` or the closed-document
metadata access — is caught and becomes
`(False, "Error verifying certificate: ...")`. -/
def simple_verify_certificate (openDoc : Except String FitzDoc)
    (student_name : String) (now : ℤ) (fuzzScore : String → String → ℕ) :
    Bool × String :=
  match (do
      let d0 ← openDoc
      simple_verify_body d0 student_name now fuzzScore :
      Except String (Bool × String)) with
  | .ok r => r
  | .error e => (false, "Error verifying certificate: " ++ e)

end BgApp

namespace Fixtures

/-- A rendered page with four nonempty anchors: two distinct PDF links (one
repeated) and one non-PDF link. -/
def renderOk : Scraping.RenderResult :=
  ⟨["b.pdf", "a.pdf", "b.pdf", "c.html", ""], "PAGE TEXT", "Title", "site/page"⟩

/-- Environment whose rendered fetch succeeds, whose fallback GET also
succeeds, and whose PDF downloads all yield the text "T".  The
`urllib.parse` abstractions are instantiated concretely: resolution returns
the href itself and the path of a URL is the URL. -/
def scrapeOk : Scraping.ScrapeEnv :=
  ⟨.ok renderOk, .ok ⟨"text/html", "PDFTEXT", "HTMLTEXT", "Ttl"⟩, fun _ => .ok "T",
    fun u => u, fun _ href => href, fun u => u⟩

/-- Environment where the rendered fetch and the fallback GET both fail. -/
def bothFail : Scraping.ScrapeEnv :=
  ⟨.error "net down", .error "connection refused", fun _ => .error "net down",
    fun u => u, fun _ href => href, fun u => u⟩

/-- Environment whose rendered fetch succeeds (same page as `renderOk`) but
whose linked-PDF downloads and fallback GET all fail. -/
def pdfFail : Scraping.ScrapeEnv :=
  ⟨.ok renderOk, .error "connection reset", fun _ => .error "download failed",
    fun u => u, fun _ href => href, fun u => u⟩

end Fixtures

namespace Scraping

theorem charListLe_total : ∀ a b : List Char, charListLe a b = true ∨ charListLe b a = true
  | [], _ => Or.inl rfl
  | _ :: _, [] => Or.inr rfl
  | a :: as, b :: bs => by
      rcases Nat.lt_trichotomy a.toNat b.toNat with h | h | h
      · left; simp [charListLe, h]
      · rcases charListLe_total as bs with ih | ih
        · left; simp [charListLe, h, ih]
        · right; simp [charListLe, h.symm, ih]
      · right; simp [charListLe, h]

theorem charListLe_trans :
    ∀ a b c : List Char,
      charListLe a b = true → charListLe b c = true → charListLe a c = true
  | [], _, _ => by intro _ _; rfl
  | _ :: _, [], _ => by intro h _; simp [charListLe] at h
  | _ :: _, _ :: _, [] => by intro _ h; simp [charListLe] at h
  | a :: as, b :: bs, c :: cs => by
      intro h1 h2
      simp only [charListLe] at h1 h2 ⊢
      rcases Nat.lt_trichotomy a.toNat b.toNat with hab | hab | hab
      · rcases Nat.lt_trichotomy b.toNat c.toNat with hbc | hbc | hbc
        · simp [Nat.lt_trans hab hbc]
        · simp [hbc ▸ hab]
        · simp [hab, Nat.lt_asymm hab] at h1
          simp [hbc, Nat.lt_asymm hbc] at h2
      · rcases Nat.lt_trichotomy b.toNat c.toNat with hbc | hbc | hbc
        · simp [hab ▸ hbc]
        · have hac : a.toNat = c.toNat := hab.trans hbc
          simp [hab, Nat.lt_irrefl] at h1
          simp [hbc, Nat.lt_irrefl] at h2
          simp [hac, Nat.lt_irrefl, charListLe_trans as bs cs h1 h2]
        · simp [hbc, Nat.lt_asymm hbc] at h2
      · simp [hab, Nat.lt_asymm hab] at h1

instance : IsTotal String pyLeRel :=
  ⟨fun a b => charListLe_total a.toList b.toList⟩

instance : IsTrans String pyLeRel :=
  ⟨fun a b c => charListLe_trans a.toList b.toList c.toList⟩

theorem processPdfs_all_ok (env : ScrapeEnv) (txt : String → String) :
    ∀ (links : List String) (docs : List ExtractedDocument),
      (∀ l ∈ links, env.fetchPdf l = .ok (txt l)) →
      processPdfs env links docs =
        (docs ++ links.map (fun l => mkPdfDoc env l (txt l)), none)
  | [], docs => by intro _; simp [processPdfs]
  | l :: ls, docs => by
      intro h
      have hl := h l (by simp)
      rw [processPdfs, hl]
      show processPdfs env ls (docs ++ [mkPdfDoc env l (txt l)]) = _
      rw [processPdfs_all_ok env txt ls (docs ++ [mkPdfDoc env l (txt l)])
        (fun x hx => h x (by simp [hx]))]
      simp

theorem processPdfs_suffix (env : ScrapeEnv) :
    ∀ (links : List String) (docs : List ExtractedDocument),
      ∃ suffix, (processPdfs env links docs).1 = docs ++ suffix
  | [], docs => ⟨[], by simp [processPdfs]⟩
  | l :: ls, docs => by
      rw [processPdfs]
      cases hf : env.fetchPdf l with
      | error e => exact ⟨[], by simp⟩
      | ok t =>
          obtain ⟨suffix, hs⟩ := processPdfs_suffix env ls (docs ++ [mkPdfDoc env l t])
          exact ⟨mkPdfDoc env l t :: suffix, by simp [hs]⟩

end Scraping

namespace CertVerify

theorem le_foldl_logoAcc :
    ∀ (imgs : List (Option (List (ℚ × ℚ)))) (acc : ℕ), acc ≤ imgs.foldl logoAcc acc
  | [], _ => le_refl _
  | o :: t, acc => by
      refine le_trans ?_ (le_foldl_logoAcc t (logoAcc acc o))
      cases o with
      | none => exact le_refl _
      | some ms => simp only [logoAcc]; split <;> omega

theorem mem_le_foldl_logoAcc (ms : List (ℚ × ℚ)) :
    ∀ (imgs : List (Option (List (ℚ × ℚ)))) (acc : ℕ), some ms ∈ imgs →
      (goodMatches ms).length ≤ imgs.foldl logoAcc acc
  | [], _ => by intro h; simp at h
  | o :: t, acc => by
      intro h
      rcases List.mem_cons.1 h with h | h
      · subst h
        refine le_trans ?_ (le_foldl_logoAcc t (logoAcc acc (some ms)))
        simp only [logoAcc]; split <;> omega
      · exact mem_le_foldl_logoAcc ms t (logoAcc acc o) h

theorem foldl_logoAcc_cases :
    ∀ (imgs : List (Option (List (ℚ × ℚ)))) (acc : ℕ),
      imgs.foldl logoAcc acc = acc ∨
        ∃ ms, some ms ∈ imgs ∧ imgs.foldl logoAcc acc = (goodMatches ms).length
  | [], _ => Or.inl rfl
  | o :: t, acc => by
      rcases o with _ | ms
      · rcases foldl_logoAcc_cases t acc with h | ⟨ms, hm, he⟩
        · exact Or.inl h
        · exact Or.inr ⟨ms, by simp [hm], by simpa [logoAcc] using he⟩
      · rcases foldl_logoAcc_cases t (logoAcc acc (some ms)) with h | ⟨ms2, hm, he⟩
        · simp only [List.foldl_cons] at *
          rw [h]
          simp only [logoAcc]
          split
          · exact Or.inr ⟨ms, by simp, rfl⟩
          · exact Or.inl rfl
        · exact Or.inr ⟨ms2, by simp [hm], by simpa using he⟩

end CertVerify

/-- C1: the verdict of `verify_certificate` is a conjunctive gate —
`is_verified` is true exactly when every gating signal clears its own
threshold (`name_match_score ≥ 85`, `logo_match_score ≥ 50`,
`metadata_check_score = 100`); in particular the input name 90, logo 100
(normalized 1.0), metadata 0 has weighted final score 76 yet is not
verified. -/
theorem C1_conjunctive_gate :
    (∀ name logo meta : ℕ,
        CertVerify.is_verified name logo meta = true ↔
          85 ≤ name ∧ 50 ≤ logo ∧ meta = 100) ∧
      CertVerify.is_verified 90 100 0 = false ∧
      CertVerify.final_score 90 100 0 = 76 := by
  refine ⟨fun name logo meta => ?_, by decide, ?_⟩
  · simp [CertVerify.is_verified, CertVerify.THRESHOLDS_name_score,
      CertVerify.THRESHOLDS_logo_score, CertVerify.THRESHOLDS_metadata_score,
      and_assoc]
  · norm_num [CertVerify.final_score, CertVerify.weightedCombination,
      CertVerify.WEIGHTS_name_match, CertVerify.WEIGHTS_logo_match,
      CertVerify.WEIGHTS_metadata_check, CertVerify.THRESHOLDS_logo_score]

/-- C2 counterexample: at full raw scores (name 100, logo 50, metadata 100)
the value stored in the report is 100 while the weighted sum
Σ(normalized_i × weight_i) is 1 — the returned final score is neither that
weighted sum nor a number in [0, 1]. -/
theorem C2_counterexample :
    CertVerify.final_score 100 50 100 = 100 ∧
      CertVerify.spec_final_confidence 100 50 100 = 1 ∧
      ¬ CertVerify.final_score 100 50 100 ≤ 1 := by
  norm_num [CertVerify.final_score, CertVerify.weightedCombination,
    CertVerify.spec_final_confidence, CertVerify.WEIGHTS_name_match,
    CertVerify.WEIGHTS_logo_match, CertVerify.WEIGHTS_metadata_check,
    CertVerify.THRESHOLDS_logo_score]

/-- C2 amended: the final score returned by `verify_certificate` equals 100
times the weighted sum Σ(normalized_i × weight_i) (weights name 0.4,
visual-mark 0.4, metadata 0.2; name and metadata normalized by /100, logo by
min(·,50)/50), and — given that the name and metadata raw scores are at most
100, as the program produces them — it lies in [0, 100], not [0, 1]. -/
theorem C2_final_score_scaled (name logo meta : ℕ)
    (hn : name ≤ 100) (hm : meta ≤ 100) :
    CertVerify.final_score name logo meta =
        100 * CertVerify.spec_final_confidence name logo meta ∧
      0 ≤ CertVerify.final_score name logo meta ∧
      CertVerify.final_score name logo meta ≤ 100 := by
  unfold CertVerify.final_score CertVerify.weightedCombination
    CertVerify.spec_final_confidence CertVerify.WEIGHTS_name_match
    CertVerify.WEIGHTS_logo_match CertVerify.WEIGHTS_metadata_check
    CertVerify.THRESHOLDS_logo_score
  refine ⟨by push_cast; ring, ?_, ?_⟩
  all_goals
    push_cast
    have hn' : (name : ℚ) ≤ 100 := by exact_mod_cast hn
    have hm' : (meta : ℚ) ≤ 100 := by exact_mod_cast hm
    have hl : ((logo : ℚ) ⊓ 50) ≤ 50 := min_le_right _ _
    have hl0 : (0 : ℚ) ≤ ((logo : ℚ) ⊓ 50) := le_min (Nat.cast_nonneg _) (by norm_num)
    have hn0 : (0 : ℚ) ≤ (name : ℚ) := Nat.cast_nonneg name
    have hm0 : (0 : ℚ) ≤ (meta : ℚ) := Nat.cast_nonneg meta
    linarith

/-- Witness for C2's amended theorem at name 100, logo 50, metadata 100. -/
theorem C2_final_score_scaled_witness :
    CertVerify.final_score 100 50 100 =
        100 * CertVerify.spec_final_confidence 100 50 100 ∧
      0 ≤ CertVerify.final_score 100 50 100 ∧
      CertVerify.final_score 100 50 100 ≤ 100 :=
  C2_final_score_scaled 100 50 100 (by norm_num) (by norm_num)

/-- C8 counterexample: on a failed open the extractor returns the Python pair
`(None, None)` — not an empty text together with an empty image sequence. -/
theorem C8_counterexample :
    MainPdf.extract_content_from_pdf (.error "FileNotFoundError") = .ok (none, none) ∧
      MainPdf.extract_content_from_pdf (.error "FileNotFoundError") ≠
        .ok (some "", some []) :=
  ⟨rfl, by simp [MainPdf.extract_content_from_pdf]⟩

/-- C8 amended: `extract_content_from_pdf` never raises to the caller — every
outcome is returned as a value: a successful parse as `(text, images)`, and an
unresolvable path or unparseable document as the sentinel `(None, None)` (with
the error printed), which is not an empty-but-valid text/image pair. -/
theorem C8_never_raises (op : Except String (String × List String)) :
    (∃ r, MainPdf.extract_content_from_pdf op = .ok r) ∧
      (∀ e, op = .error e →
        MainPdf.extract_content_from_pdf op = .ok (none, none)) ∧
      (∀ t imgs, op = .ok (t, imgs) →
        MainPdf.extract_content_from_pdf op = .ok (some t, some imgs)) := by
  rcases op with e | ⟨t, imgs⟩ <;>
    simp [MainPdf.extract_content_from_pdf]

/-- Witness for C8's amended theorem: the failing-open case. -/
theorem C8_never_raises_witness :
    MainPdf.extract_content_from_pdf (.error "FileNotFoundError") = .ok (none, none) :=
  (C8_never_raises (.error "FileNotFoundError")).2.1 "FileNotFoundError" rfl

/-- C9: `simple_verify_certificate` can never return `True`: it closes the
document before reading `doc.metadata`, that access raises on the closed
document, so control always reaches the `except` handler and the function
returns `False` with an error-reason string — for every opened document the
result is exactly `(False, "Error verifying certificate: document closed")`,
and for every environment the verdict component is `False`. -/
theorem C9_always_false :
    (∀ (openDoc : Except String BgApp.FitzDoc) (student_name : String) (now : ℤ)
        (fz : String → String → ℕ),
        (BgApp.simple_verify_certificate openDoc student_name now fz).1 = false) ∧
      ∀ (d : BgApp.FitzDoc) (student_name : String) (now : ℤ)
        (fz : String → String → ℕ),
        BgApp.simple_verify_certificate (.ok d) student_name now fz =
          (false, "Error verifying certificate: document closed") := by
  constructor
  · intro openDoc student_name now fz
    rcases openDoc with e | d <;> rfl
  · intro d student_name now fz
    rfl

/-- C10: the date check has no lower bound on age — it only tests
`(now - creation_date).days ≤ 365*5` — so any parseable creation date lying in
the future (the difference being negative) passes the metadata check with
score 100. -/
theorem C10_future_dates_pass (s : String) (y m d : ℕ) (now : ℤ)
    (hs : s ≠ "")
    (hp : PyDate.strptimeYmd
        (if "D:".toList.isPrefixOf s.toList then (s.toList.drop 2).take 8
         else s.toList) = some (y, m, d))
    (hfut : now < (PyDate.toOrdinal y m d : ℤ)) :
    (CertVerify.metadataCheck (some s) now).score = 100 := by
  unfold CertVerify.metadataCheck
  simp only [hs, if_false, hp]
  rw [if_pos (by omega)]

/-- Witness for C10: a creation date in the year 9999, seen from the ordinal
day of 2025-10-12, passes with score 100. -/
theorem C10_future_dates_pass_witness :
    (CertVerify.metadataCheck (some "D:99990101") 739536).score = 100 :=
  C10_future_dates_pass "D:99990101" 9999 1 1 739536 (by decide) (by decide)
    (by decide)

/-- C3: the metadata plausibility check is binary — its score is 100 or 0,
never partial; it is 100 exactly when a nonempty creation-date value is
present, the (`D:`-stripped, 8-character) date parses, and the date is within
365×5 days of now; every zero-scoring case records a warning/error line; and
the concrete ten-year-old date 2015-06-01, seen from the ordinal day of
2025-10-12, scores 0 with the "older than 5 years" warning. -/
theorem C3_metadata_binary :
    (∀ (cd : Option String) (now : ℤ),
        (CertVerify.metadataCheck cd now).score = 100 ∨
          (CertVerify.metadataCheck cd now).score = 0) ∧
      (∀ (cd : Option String) (now : ℤ),
        (CertVerify.metadataCheck cd now).score = 100 ↔
          ∃ s y m d, cd = some s ∧ s ≠ "" ∧
            PyDate.strptimeYmd
                (if "D:".toList.isPrefixOf s.toList then (s.toList.drop 2).take 8
                 else s.toList) = some (y, m, d) ∧
            now - (PyDate.toOrdinal y m d : ℤ) ≤ 365 * 5) ∧
      (∀ (cd : Option String) (now : ℤ),
        (CertVerify.metadataCheck cd now).score = 0 →
          (CertVerify.metadataCheck cd now).log ≠ []) ∧
      CertVerify.metadataCheck (some "D:20150601") 739536 =
        ⟨0, ["Warning: Certificate is older than 5 years."]⟩ := by
  have hchar : ∀ (cd : Option String) (now : ℤ),
      CertVerify.metadataCheck cd now = ⟨100, []⟩ ∨
        ((CertVerify.metadataCheck cd now).score = 0 ∧
          (CertVerify.metadataCheck cd now).log ≠ []) := by
    intro cd now
    rcases cd with _ | s
    · right; exact ⟨rfl, by simp [CertVerify.metadataCheck]⟩
    · by_cases hs : s = ""
      · subst hs; right; exact ⟨rfl, by simp [CertVerify.metadataCheck]⟩
      · unfold CertVerify.metadataCheck
        simp only [hs, if_false]
        rcases PyDate.strptimeYmd
            (if "D:".toList.isPrefixOf s.toList then (s.toList.drop 2).take 8
             else s.toList) with _ | ⟨y, m, d⟩
        · right; exact ⟨rfl, by simp⟩
        · dsimp only
          by_cases hle : now - (PyDate.toOrdinal y m d : ℤ) ≤ 365 * 5
          · left; rw [if_pos hle]
          · right; rw [if_neg hle]; exact ⟨rfl, by simp⟩
  refine ⟨?_, ?_, ?_, by decide⟩
  · intro cd now
    rcases hchar cd now with h | h
    · left; rw [h]
    · right; exact h.1
  · intro cd now
    constructor
    · intro h100
      rcases cd with _ | s
      · exact absurd h100 (by simp [CertVerify.metadataCheck])
      · by_cases hs : s = ""
        · subst hs; exact absurd h100 (by simp [CertVerify.metadataCheck])
        · revert h100
          unfold CertVerify.metadataCheck
          simp only [hs, if_false]
          rcases hp : PyDate.strptimeYmd
              (if "D:".toList.isPrefixOf s.toList then (s.toList.drop 2).take 8
               else s.toList) with _ | ⟨y, m, d⟩
          · dsimp only
            intro h100
            exact absurd h100 (by simp)
          · dsimp only
            by_cases hle : now - (PyDate.toOrdinal y m d : ℤ) ≤ 365 * 5
            · intro _
              exact ⟨s, y, m, d, rfl, hs, hp, hle⟩
            · rw [if_neg hle]
              intro h100
              exact absurd h100 (by simp)
    · rintro ⟨s, y, m, d, rfl, hs, hp, hle⟩
      unfold CertVerify.metadataCheck
      simp only [hs, if_false, hp]
      rw [if_pos hle]
  · intro cd now h0
    rcases hchar cd now with h | h
    · rw [h] at h0; exact absurd h0 (by simp)
    · exact h.2

/-- Witness for C3: instantiating the zero-score clause at a missing creation
date. -/
theorem C3_metadata_binary_witness :
    (CertVerify.metadataCheck none 0).log ≠ [] ∧
      (CertVerify.metadataCheck (some "D:20251001120000Z") 739536).score = 100 :=
  ⟨C3_metadata_binary.2.2.1 none 0 (by decide),
    (C3_metadata_binary.2.1 (some "D:20251001120000Z") 739536).2
      ⟨"D:20251001120000Z", 2025, 10, 1, rfl, by decide, by decide, by decide⟩⟩

/-- C4: the visual-mark signal — the ratio test keeps a keypoint-match pair
exactly when its best descriptor distance is below 0.75 times the second
best; the raw logo score is the maximum good-match count over the readable
candidate images (an upper bound attained by some image unless it is 0); the
normalization caps the raw value at 50 and divides by 50, giving a value in
[0, 1]; and with no extracted images the step yields score 0 with a warning
note (it is a total function — nothing is thrown). -/
theorem C4_visual_mark :
    (∀ (ms : List (ℚ × ℚ)) (p : ℚ × ℚ),
        p ∈ CertVerify.goodMatches ms ↔ p ∈ ms ∧ p.1 < 0.75 * p.2) ∧
      (∀ (imgs : List (Option (List (ℚ × ℚ)))) (ms : List (ℚ × ℚ)),
        some ms ∈ imgs →
          (CertVerify.goodMatches ms).length ≤ CertVerify.logoLoop imgs) ∧
      (∀ imgs, CertVerify.logoLoop imgs = 0 ∨
        ∃ ms, some ms ∈ imgs ∧
          CertVerify.logoLoop imgs = (CertVerify.goodMatches ms).length) ∧
      (∀ raw : ℕ, 0 ≤ CertVerify.normalizedLogo raw ∧
        CertVerify.normalizedLogo raw ≤ 1 ∧
        (50 ≤ raw → CertVerify.normalizedLogo raw = 1) ∧
        (raw ≤ 50 → CertVerify.normalizedLogo raw = (raw : ℚ) / 50)) ∧
      CertVerify.logoStep [] =
        (0, ["Warning: No images found for logo verification."]) := by
  refine ⟨?_, ?_, ?_, ?_, rfl⟩
  · intro ms p
    simp [CertVerify.goodMatches, List.mem_filter]
  · intro imgs ms h
    exact CertVerify.mem_le_foldl_logoAcc ms imgs 0 h
  · intro imgs
    exact CertVerify.foldl_logoAcc_cases imgs 0
  · intro raw
    unfold CertVerify.normalizedLogo CertVerify.THRESHOLDS_logo_score
    refine ⟨?_, ?_, ?_, ?_⟩
    · exact div_nonneg (Nat.cast_nonneg _) (by norm_num)
    · rw [div_le_one (by norm_num)]
      exact_mod_cast min_le_right raw 50
    · intro h
      rw [min_eq_right h]
      norm_num
    · intro h
      rw [min_eq_left h]
      norm_num

/-- Witness for C4: a pair passing the ratio test bounds the loop value, and
the normalization clauses at raw scores 100 and 25. -/
theorem C4_visual_mark_witness :
    (CertVerify.goodMatches [((1 : ℚ), 2)]).length ≤
        CertVerify.logoLoop [some [((1 : ℚ), 2)]] ∧
      CertVerify.normalizedLogo 100 = 1 ∧
      CertVerify.normalizedLogo 25 = (25 : ℚ) / 50 :=
  ⟨C4_visual_mark.2.1 [some [((1 : ℚ), 2)]] [((1 : ℚ), 2)] (by simp),
    (C4_visual_mark.2.2.2.1 100).2.2.1 (by norm_num),
    (C4_visual_mark.2.2.2.1 25).2.2.2 (by norm_num)⟩

/-- C7 counterexample: when the web scraping step fails,
`verify_main.verify_certificate` returns the early `{"error": ...}` dict —
a returned value, but not a report carrying `is_verified`, a confidence, or a
log. -/
theorem C7_counterexample :
    VerifyMain.verify_certificate
        ⟨.ok ("TEXT", []), .error "boom", .ok "PROMPT", .ok "JSON"⟩
        (some "u") =
      .ok (.errorDict "Website scraping failed: boom") ∧
      "is_verified" ∉
        (VerifyMain.VMResult.errorDict "Website scraping failed: boom").keys :=
  ⟨rfl, by decide⟩

/-- C7 amended: no exception escapes either orchestrator-level
`verify_certificate`: the `verify_main` one returns a dict for every
environment and input (every internal failure — PDF extraction, web scraping,
prompt building, LLM extraction — is caught), and the pipeline one in
`verify_certificate.py` always returns a results record which, whenever the
extraction phase or the logo phase raised, has `is_verified = false` and an
explanatory error entry in its log; but `verify_main`'s worst-case outcome is
the bare `{"error": ...}` dict, not a report with `is_verified = false`. -/
theorem C7_no_escape :
    (∀ (env : VerifyMain.VMEnv) (url : Option String),
        ∃ r, VerifyMain.verify_certificate env url = .ok r) ∧
      (∀ (env : CertVerify.PipelineEnv) (now : ℤ) (e : String),
        env.extractPhase = .error e →
          (CertVerify.verify_certificate env now).is_verified = false ∧
            ("Error during verification: " ++ e) ∈
              (CertVerify.verify_certificate env now).analysis_log) ∧
      ∀ (env : CertVerify.PipelineEnv) (now : ℤ)
        (ex : CertVerify.ExtractPhase) (e : String),
        env.extractPhase = .ok ex → env.logoPhase = .error e →
          (CertVerify.verify_certificate env now).is_verified = false ∧
            ("Error during verification: " ++ e) ∈
              (CertVerify.verify_certificate env now).analysis_log := by
  refine ⟨?_, ?_, ?_⟩
  · intro env url
    rcases env with ⟨pdfOp, scrape, prompt, llm⟩
    rcases pdfOp with e1 | ⟨t, imgs⟩ <;>
      rcases url with _ | u <;>
        rcases scrape with e2 | docs <;>
          rcases prompt with e3 | p <;>
            rcases llm with e4 | j <;>
              exact ⟨_, rfl⟩
  · intro env now e h
    rcases env with ⟨extractPhase, nameScoreOf, logoPhase⟩
    cases h
    constructor
    · rfl
    · simp [CertVerify.verify_certificate, CertVerify.finalize]
  · intro env now ex e hex hlogo
    rcases env with ⟨extractPhase, nameScoreOf, logoPhase⟩
    cases hex
    cases hlogo
    unfold CertVerify.verify_certificate
    constructor
    · simp [CertVerify.finalize, CertVerify.is_verified,
        CertVerify.THRESHOLDS_logo_score]
    · simp [CertVerify.finalize]

/-- Witness for C7's amended theorem: a run whose extraction phase raised. -/
theorem C7_no_escape_witness :
    (CertVerify.verify_certificate
        ⟨.error "io error", fun _ => 0, .ok (0, [])⟩ 0).is_verified = false ∧
      "Error during verification: io error" ∈
        (CertVerify.verify_certificate
          ⟨.error "io error", fun _ => 0, .ok (0, [])⟩ 0).analysis_log :=
  C7_no_escape.2.1 ⟨.error "io error", fun _ => 0, .ok (0, [])⟩ 0 "io error" rfl

/-- C5: linked-PDF discovery resolves every anchor href of the fetched page
against the page's final URL, keeps exactly the candidates whose (lower-cased)
path contains ".pdf", de-duplicates, and sorts lexicographically; and on a
fully successful rendered fetch `extract_from_website` emits, after the
top-level document, exactly the first `max_pdfs` entries of that sorted list
as linked-PDF evidence documents, in order — a deterministic sequence for a
given page. -/
theorem C5_linked_pdfs_deterministic :
    (∀ (urljoin : String → String → String) (urlPath : String → String)
        (hrefs : List String) (base u : String),
        (u ∈ Scraping.find_pdf_links urljoin urlPath hrefs base ↔
            (∃ href ∈ hrefs, Scraping.normalize_url urljoin base href = some u) ∧
              Scraping.is_pdf_link urlPath u = true) ∧
          (Scraping.find_pdf_links urljoin urlPath hrefs base).Nodup ∧
          List.Sorted Scraping.pyLeRel
            (Scraping.find_pdf_links urljoin urlPath hrefs base)) ∧
      ∀ (env : Scraping.ScrapeEnv) (url : String) (max_pdfs : ℕ)
        (r : Scraping.RenderResult) (txt : String → String),
        env.render = .ok r →
        (∀ l, env.fetchPdf l = .ok (txt l)) →
        Scraping.extract_from_website env url true max_pdfs =
          .ok (Scraping.topDoc r ::
            ((Scraping.find_pdf_links env.urljoin env.urlPath r.hrefs
                r.final_url).take max_pdfs).map
              (fun l => Scraping.mkPdfDoc env l (txt l))) := by
  constructor
  · intro urljoin urlPath hrefs base u
    refine ⟨?_, ?_, ?_⟩
    · rw [Scraping.find_pdf_links,
        (List.perm_insertionSort Scraping.pyLeRel _).mem_iff,
        List.mem_dedup, List.mem_filter, List.mem_filterMap]
    · exact (List.perm_insertionSort Scraping.pyLeRel _).nodup_iff.2
        (List.nodup_dedup _)
    · exact List.sorted_insertionSort Scraping.pyLeRel _
  · intro env url max_pdfs r txt hr hfetch
    unfold Scraping.extract_from_website
    rw [hr]
    dsimp only
    rw [Scraping.processPdfs_all_ok env txt _ _ (fun l _ => hfetch l)]
    simp

/-- Witness for C5: a concrete page with anchors
`["b.pdf", "a.pdf", "b.pdf", "c.html", ""]` yields the top document followed
by the de-duplicated, sorted linked-PDF documents for `a.pdf` then `b.pdf`. -/
theorem C5_linked_pdfs_witness :
    Scraping.extract_from_website Fixtures.scrapeOk "site/page" true 5 =
      .ok [Scraping.topDoc Fixtures.renderOk,
        ⟨"a.pdf", "pdf", "T", [("filename", "a.pdf")]⟩,
        ⟨"b.pdf", "pdf", "T", [("filename", "b.pdf")]⟩] :=
  (C5_linked_pdfs_deterministic.2 Fixtures.scrapeOk "site/page" 5 Fixtures.renderOk
      (fun _ => "T") rfl (fun _ => rfl)).trans rfl

/-- C6 counterexample: for a URL where the rendered fetch and the fallback
plain GET both fail after their retries, `extract_from_website` propagates the
fetch exception — it does not return an empty (or any) sequence. -/
theorem C6_counterexample :
    Scraping.extract_from_website Fixtures.bothFail "unreachable" true 5 =
      .error "connection refused" := rfl

/-- C6 amended: when the rendered-fetch path fails (even after a successful
top-level render, e.g. on a linked-PDF download) AND the fallback plain GET
also fails, `extract_from_website` raises the GET's error instead of returning
an empty sequence; whenever the fallback GET succeeds the call returns
normally; and every successful return is a non-empty sequence whose first
element is the top-level evidence document (the rendered page when the render
succeeded, otherwise the plain-GET document for the requested URL). -/
theorem C6_fetch_failure :
    (∀ (env : Scraping.ScrapeEnv) (url : String) (inc : Bool) (mx : ℕ)
        (e e2 : String),
        env.render = .error e → env.fetchTop = .error e2 →
        Scraping.extract_from_website env url inc mx = .error e2) ∧
      (∀ (env : Scraping.ScrapeEnv) (url : String) (mx : ℕ)
        (r : Scraping.RenderResult) (docs2 : List Scraping.ExtractedDocument)
        (e3 e2 : String),
        env.render = .ok r →
        Scraping.processPdfs env
            ((Scraping.find_pdf_links env.urljoin env.urlPath r.hrefs
              r.final_url).take mx) [Scraping.topDoc r] = (docs2, some e3) →
        env.fetchTop = .error e2 →
        Scraping.extract_from_website env url true mx = .error e2) ∧
      (∀ (env : Scraping.ScrapeEnv) (url : String) (inc : Bool) (mx : ℕ)
        (resp : Scraping.PlainResponse), env.fetchTop = .ok resp →
        ∃ docs, Scraping.extract_from_website env url inc mx = .ok docs) ∧
      ∀ (env : Scraping.ScrapeEnv) (url : String) (inc : Bool) (mx : ℕ)
        (docs : List Scraping.ExtractedDocument),
        Scraping.extract_from_website env url inc mx = .ok docs →
          docs ≠ [] ∧ ∀ d, docs.head? = some d →
            d.source_url = url ∨
              ∃ r, env.render = .ok r ∧ d = Scraping.topDoc r := by
  refine ⟨?_, ?_, ?_, ?_⟩
  · intro env url inc mx e e2 h1 h2
    unfold Scraping.extract_from_website
    rw [h1]
    unfold Scraping.fallback
    rw [h2]
  · intro env url mx r docs2 e3 e2 hr hpp hft
    unfold Scraping.extract_from_website
    rw [hr]
    dsimp only
    rw [hpp]
    unfold Scraping.fallback
    rw [hft]
    rfl
  · intro env url inc mx resp h2
    have hfb : ∀ docs, ∃ docs2, Scraping.fallback env url docs = .ok docs2 := by
      intro docs
      unfold Scraping.fallback
      rw [h2]
      dsimp only
      split <;> exact ⟨_, rfl⟩
    rcases hr : env.render with e | r
    · unfold Scraping.extract_from_website
      rw [hr]
      exact hfb []
    · unfold Scraping.extract_from_website
      rw [hr]
      rcases inc with _ | _
      · exact ⟨_, rfl⟩
      · dsimp only
        rcases hpp : Scraping.processPdfs env
            ((Scraping.find_pdf_links env.urljoin env.urlPath r.hrefs
              r.final_url).take mx) [Scraping.topDoc r] with ⟨docs2, o⟩
        rcases o with _ | e3
        · exact ⟨_, rfl⟩
        · exact hfb docs2
  · intro env url inc mx docs hok
    have hfb : ∀ pre docs2, Scraping.fallback env url pre = .ok docs2 →
        ∃ d2, docs2 = pre ++ [d2] ∧ d2.source_url = url := by
      intro pre docs2 h
      unfold Scraping.fallback at h
      rcases hft : env.fetchTop with e | resp <;> rw [hft] at h
      · simp at h
      · dsimp only at h
        split at h <;> cases h <;> exact ⟨_, rfl, rfl⟩
    rcases hr : env.render with e | r
    · rw [Scraping.extract_from_website, hr] at hok
      obtain ⟨d2, hd2, hsrc⟩ := hfb [] docs hok
      subst hd2
      exact ⟨by simp, fun d hd => by simp at hd; exact Or.inl (hd ▸ hsrc)⟩
    · rw [Scraping.extract_from_website, hr] at hok
      rcases inc with _ | _
      · cases hok
        exact ⟨by simp, fun d hd => by
          simp at hd
          exact Or.inr ⟨r, rfl, hd.symm⟩⟩
      · dsimp only at hok
        rcases hpp : Scraping.processPdfs env
            ((Scraping.find_pdf_links env.urljoin env.urlPath r.hrefs
              r.final_url).take mx) [Scraping.topDoc r] with ⟨docs2, o⟩
        rw [hpp] at hok
        obtain ⟨suffix, hsuf⟩ := Scraping.processPdfs_suffix env
          ((Scraping.find_pdf_links env.urljoin env.urlPath r.hrefs
            r.final_url).take mx) [Scraping.topDoc r]
        rw [hpp] at hsuf
        dsimp only at hsuf
        rcases o with _ | e3
        · cases hok
          subst hsuf
          refine ⟨by simp, fun d hd => ?_⟩
          simp at hd
          exact Or.inr ⟨r, rfl, hd.symm⟩
        · obtain ⟨d2, hd2, hsrc⟩ := hfb docs2 docs hok
          subst hd2 hsuf
          refine ⟨by simp, fun d hd => ?_⟩
          simp at hd
          exact Or.inr ⟨r, rfl, hd.symm⟩

/-- Witness for C6's amended theorem: the linked-PDF-download failure after a
successful render, combined with a failing fallback GET, propagates the GET's
error; and an environment whose fallback GET succeeds always yields a returned
document list. -/
theorem C6_fetch_failure_witness :
    Scraping.extract_from_website Fixtures.pdfFail "site/page" true 5 =
        .error "connection reset" ∧
      ∃ docs, Scraping.extract_from_website Fixtures.scrapeOk "site/page" true 5 =
        .ok docs :=
  ⟨C6_fetch_failure.2.1 Fixtures.pdfFail "site/page" 5 Fixtures.renderOk
      [Scraping.topDoc Fixtures.renderOk] "download failed" "connection reset"
      rfl (by decide) rfl,
    C6_fetch_failure.2.2.1 Fixtures.scrapeOk "site/page" true 5
      ⟨"text/html", "PDFTEXT", "HTMLTEXT", "Ttl"⟩ rfl⟩
